import Mathlib

/-!
Shallow embedding of `src/PRxWidget.tsx` (react-native-preview): the bridge
component `PRxWidget` that hosts the PRx clinical-trial widget in a WebView
(native platforms) or an iframe (web platform).

The embedding models:
  - the JSON values the WebView message channel delivers (`JVal`, with the
    JavaScript truthiness test the handler applies to payload fields);
  - the component's local state (`WidgetState`: `loading`, `height`,
    `userLocation`) and its initial values;
  - the message handler `handleMessage` (lines 159-176 of the source);
  - the navigation-request handler `handleNavigationRequest` (lines 179-202);
  - the permission-gated location fetch of the mount effect (lines 32-49);
  - the injected-script construction `getInjectedJavaScript` (lines 55-125)
    together with a semantic model of the geolocation stub the override
    installs (`injectedGetCurrentPosition`);
  - the HTML template `html` (lines 128-156);
  - the platform-branched render (lines 205-253) and the event-step relation
    the component's handlers induce.

Platform primitives that live outside the repository (JSON.parse,
Linking.openURL, the WebView itself) are treated as black boxes: parsing
outcomes, permission outcomes and opener outcomes are parameters of the
embedded functions, exactly as the source consumes them through callbacks.
-/

/-- JavaScript number as the message channel can carry one: either NaN or a
rational value. (JSON.parse itself never produces NaN, but the handler's
truthiness test is defined on all JS numbers, so the model keeps it.) -/
inductive JNum where
  | nan
  | val (q : ℚ)

/-- Parsed JSON value, the shape `JSON.parse` hands to `handleMessage`. -/
inductive JVal where
  | jnull
  | jbool (b : Bool)
  | jnum (n : JNum)
  | jstr (s : String)
  | jarr (elems : List JVal)
  | jobj (fields : List (String × JVal))

/-- JavaScript truthiness of a value: `false`, `0`, `NaN`, `""` and `null`
are falsy; every object and array is truthy. -/
def truthy : JVal → Bool
  | JVal.jnull => false
  | JVal.jbool b => b
  | JVal.jnum JNum.nan => false
  | JVal.jnum (JNum.val q) => q != 0
  | JVal.jstr s => s != ""
  | JVal.jarr _ => true
  | JVal.jobj _ => true

/-- JavaScript truthiness of a property-access result: an absent property
reads as `undefined`, which is falsy. -/
def truthyOpt : Option JVal → Bool
  | none => false
  | some v => truthy v

/-- Specification-level (propositional) truthiness of a property-access
result, for stating claims independently of the executable `truthyOpt`. -/
def Truthy : Option JVal → Prop
  | none => False
  | some JVal.jnull => False
  | some (JVal.jbool b) => b = true
  | some (JVal.jnum JNum.nan) => False
  | some (JVal.jnum (JNum.val q)) => q ≠ 0
  | some (JVal.jstr s) => s ≠ ""
  | some (JVal.jarr _) => True
  | some (JVal.jobj _) => True

/-- Strict equality `x === 'lit'` between a property-access result and a
string literal, as the handler's discriminator checks use it. -/
def isStrField (v : Option JVal) (lit : String) : Bool :=
  match v with
  | some (JVal.jstr s) => s == lit
  | _ => false

/-- Stored coordinate, the shape `setUserLocation` receives
(`{ lat: location.coords.latitude, long: location.coords.longitude }`). -/
structure Coord where
  lat : ℚ
  long : ℚ

/-- Outcome of `Location.requestForegroundPermissionsAsync()`: the returned
status is `granted` or `denied`, or the call itself throws. -/
inductive PermOutcome where
  | granted
  | denied
  | failed
deriving DecidableEq

/-- Outcome of `Location.getCurrentPositionAsync(...)`: a position fix, or a
thrown error. -/
inductive FetchOutcome where
  | ok (c : Coord)
  | failed

/-- Coordinate stored by the mount effect (source lines 32-49): stored only
when permission is granted and the fetch succeeds; every failure is caught
and leaves the state untouched (`userLocation` stays `none`). -/
def fetchUserLocation : PermOutcome → FetchOutcome → Option Coord
  | PermOutcome.granted, FetchOutcome.ok c => some c
  | PermOutcome.granted, FetchOutcome.failed => none
  | PermOutcome.denied, _ => none
  | PermOutcome.failed, _ => none

/-- Coordinates object of the success callback the injected geolocation stub
builds (source lines 62-73): nullable readings are `Option ℚ`, with `none`
standing for JavaScript `null`. -/
structure GeoCoords where
  latitude : ℚ
  longitude : ℚ
  accuracy : Option ℚ
  altitude : Option ℚ
  altitudeAccuracy : Option ℚ
  heading : Option ℚ
  speed : Option ℚ

/-- Position object the injected stub passes to the success callback:
coordinates plus the generated `Date.now()` timestamp. -/
structure GeoPosition where
  coords : GeoCoords
  timestamp : ℤ

/-- Semantic model of the stub the location override installs as
`navigator.geolocation.getCurrentPosition` (source lines 61-74): it
synchronously invokes the success callback on the stored native coordinate
with accuracy 100, null altitude/altitudeAccuracy/heading/speed and the
current time; the error callback and the options argument are ignored. -/
def injectedGetCurrentPosition {α : Type} {β : Type} {γ : Type}
    (nativeCoords : Coord) (now : ℤ)
    (success : GeoPosition → α) (error : β) (options : γ) : α :=
  let _ := error
  let _ := options
  success
    { coords :=
        { latitude := nativeCoords.lat
          longitude := nativeCoords.long
          accuracy := some 100
          altitude := none
          altitudeAccuracy := none
          heading := none
          speed := none }
      timestamp := now }

/-- Rendering of an interpolated JS number `${q}` into the template string.
Faithful to JavaScript for the integral coordinates the development
evaluates; a non-integral rational is rendered as a fraction, which
JavaScript would print differently, but no theorem evaluates that branch. -/
def jsNumberToString (q : ℚ) : String :=
  if q.den = 1 then toString q.num else toString q.num ++ "/" ++ toString q.den

/-- Text of the `locationOverride` template fragment (source lines 56-76):
empty when no coordinate was stored, otherwise the geolocation override. -/
def locationOverride : Option Coord → String
  | none => ""
  | some c =>
      "\n        // Override geolocation with native location\n        const nativeCoords = \x7b latitude: "
        ++ jsNumberToString c.lat
        ++ ", longitude: "
        ++ jsNumberToString c.long
        ++ " \x7d;\n\n        navigator.geolocation.getCurrentPosition = function(success, error, options) \x7b\n          success(\x7b\n            coords: \x7b\n              latitude: nativeCoords.latitude,\n              longitude: nativeCoords.longitude,\n              accuracy: 100,\n              altitude: null,\n              altitudeAccuracy: null,\n              heading: null,\n              speed: null\n            \x7d,\n            timestamp: Date.now()\n          \x7d);\n        \x7d;\n      "

/-- Fixed tail of the injected script (source lines 82-124): window.open
interception, target=_blank click interception and height reporting. -/
def injectedJSInterception : String :=
  "\n\n        // Intercept window.open to open links in native browser\n        const originalOpen = window.open;\n        window.open = function(url, target, features) \x7b\n          if (url && window.ReactNativeWebView) \x7b\n            window.ReactNativeWebView.postMessage(JSON.stringify(\x7b\n              type: 'external_link',\n              url: url\n            \x7d));\n            return null;\n          \x7d\n          return originalOpen.call(window, url, target, features);\n        \x7d;\n\n        // Also intercept link clicks with target=\"_blank\"\n        document.addEventListener('click', function(e) \x7b\n          const link = e.target.closest('a[target=\"_blank\"]');\n          if (link && link.href) \x7b\n            e.preventDefault();\n            window.ReactNativeWebView.postMessage(JSON.stringify(\x7b\n              type: 'external_link',\n              url: link.href\n            \x7d));\n          \x7d\n        \x7d, true);\n\n        // Report height changes\n        function reportHeight() \x7b\n          const height = Math.max(\n            document.body.scrollHeight,\n            document.documentElement.scrollHeight\n          );\n          if (window.ReactNativeWebView) \x7b\n            window.ReactNativeWebView.postMessage(JSON.stringify(\x7b type: 'resize', height \x7d));\n          \x7d\n        \x7d\n\n        new ResizeObserver(reportHeight).observe(document.body);\n        window.addEventListener('load', () => setTimeout(reportHeight, 500));\n        setInterval(reportHeight, 1000); // Periodic check for dynamic content\n\n        true;\n      \x7d)();\n    "

/-- Full text `getInjectedJavaScript()` returns (source lines 55-125),
assembled from the override fragment and the fixed interception tail. -/
def getInjectedJavaScript (userLocation : Option Coord) : String :=
  "\n      (function() \x7b\n        " ++ locationOverride userLocation ++ injectedJSInterception

/-- HTML template text before the interpolated widget id (source lines
128-145, up to and including the opening quote of the `widget_id` value). -/
def htmlDocHead : String :=
  "\n    <!DOCTYPE html>\n    <html>\n    <head>\n      <meta name=\"viewport\" content=\"width=device-width, initial-scale=1, maximum-scale=1, user-scalable=no\">\n      <style>\n        * \x7b box-sizing: border-box; \x7d\n        html, body \x7b\n          margin: 0;\n          padding: 0;\n          overflow-x: hidden;\n          -webkit-overflow-scrolling: touch;\n        \x7d\n      </style>\n    </head>\n    <body>\n      <script type=\"application/json\" data-prxengage-config>\x7b\n  "

/-- Opening of the `widget_id` entry of the embedded configuration block. -/
def widgetIdKey : String :=
  "\"widget_id\": \""

/-- Fixed presentation options of the configuration block that follow the
interpolated widget id (source lines 145-150). -/
def htmlConfigOptions : String :=
  "\",\n  \"consent_position\": \"above-condition\",\n  \"button_background_color\": \"#233b65\",\n  \"text_accent_color\": \"#120c0e\",\n  \"max_height_mode\": \"fill\",\n  \"container_style\": \"none\""

/-- HTML template text after the configuration block (source lines 151-156):
the widget element and the fixed-origin script tag. -/
def htmlDocTail : String :=
  "\n\x7d</script>\n      <prxengage-widget></prxengage-widget>\n      <script src=\"https://widget.prxengage.com/widget.js\"></script>\n    </body>\n    </html>\n  "

/-- Markup document the component feeds the WebView/iframe (source lines
128-156): the template literal with the widget id interpolated into the
configuration block. -/
def html (widgetId : String) : String :=
  htmlDocHead ++ widgetIdKey ++ widgetId ++ htmlConfigOptions ++ htmlDocTail

/-- Local state of the component: `loading` (source line 26, initial
`true`), `height` (line 27, initial `600`; set to whatever value a truthy
resize payload carries, so modelled as a `JVal`), `userLocation` (line 28,
initial `null`). -/
structure WidgetState where
  loading : Bool
  height : JVal
  userLocation : Option Coord

/-- State on mount: `useState(true)`, `useState(600)`, `useState(null)`. -/
def initState : WidgetState :=
  { loading := true
    height := JVal.jnum (JNum.val 600)
    userLocation := none }

/-- Observable side effects a handler can request from the host platform.
`openURL` is `Linking.openURL`; `navigate` stands for in-document navigation
of the embedded page, which no handler of the component ever requests. -/
inductive Effect where
  | openURL (url : JVal)
  | navigate (url : JVal)

/-- Message handler `handleMessage` (source lines 159-176), written over the
outcome of `JSON.parse` of the event payload: `none` when parsing threw (the
catch block ignores it). A `null` payload also lands in the catch block (the
property access `data.type` throws a TypeError); a non-object payload reads
`undefined` for every property, so neither branch fires. On an object, the
resize branch stores the `height` property when the discriminator matches
and the property is truthy, and the external-link branch requests
`Linking.openURL` on the `url` property under the same shape of test. -/
def handleMessage (parsed : Option JVal) (st : WidgetState) : WidgetState × List Effect :=
  match parsed with
  | none => (st, [])
  | some JVal.jnull => (st, [])
  | some (JVal.jobj fields) =>
      let ty := List.lookup "type" fields
      let st1 :=
        if isStrField ty "resize" && truthyOpt (List.lookup "height" fields) then
          { st with height := (List.lookup "height" fields).getD JVal.jnull }
        else st
      let effects :=
        if isStrField ty "external_link" && truthyOpt (List.lookup "url" fields) then
          [Effect.openURL ((List.lookup "url" fields).getD JVal.jnull)]
        else []
      (st1, effects)
  | some _ => (st, [])

/-- Continuation attached to `Linking.openURL(...)` (source lines 169-171
and 195-197): on rejection the catch handler logs `Failed to open URL:` and
touches nothing else; on resolution nothing happens. The component state is
not an input, so the opener's outcome can change no state. -/
def attemptOpenURLFollowup (opened : Bool) : List String :=
  if opened then [] else ["Failed to open URL:"]

/-- JavaScript `pat` as a leading segment of `l` (character-list core of
`String.prototype.startsWith`). -/
def listLeads : List Char → List Char → Bool
  | [], _ => true
  | _ :: _, [] => false
  | a :: as, b :: bs => a == b && listLeads as bs

/-- JavaScript substring occurrence (character-list core of
`String.prototype.includes`). -/
def listOccurs (pat : List Char) : List Char → Bool
  | [] => listLeads pat []
  | b :: bs => listLeads pat (b :: bs) || listOccurs pat bs

/-- Model of `url.includes(pat)`. -/
def jsStringIncludes (s pat : String) : Bool :=
  listOccurs pat.data s.data

/-- Model of `url.startsWith(pat)`. -/
def jsStringStartsWith (s pat : String) : Bool :=
  listLeads pat.data s.data

/-- Navigation handler `handleNavigationRequest` (source lines 179-202):
the boolean is the value returned to `onShouldStartLoadWithRequest` (`true`
lets the WebView load the URL in-document), and the effect list records the
`Linking.openURL` call of the external branch. -/
def handleNavigationRequest (url : String) : Bool × List Effect :=
  if url == "about:blank"
      || jsStringStartsWith url "data:"
      || jsStringIncludes url "widget.prxengage.com"
      || jsStringIncludes url "api.prxengage.com"
      || jsStringIncludes url "api-staging.prxengage.com" then
    (true, [])
  else if jsStringStartsWith url "http" then
    (false, [Effect.openURL (JVal.jstr url)])
  else
    (true, [])

/-- Specification-level allow condition of the navigation handler: the
initial blank document, a data-scheme payload, or a URL matching one of the
three trusted origins (the substring test `url.includes(origin)` the source
performs). -/
def NavTrusted (url : String) : Prop :=
  url = "about:blank"
    ∨ jsStringStartsWith url "data:" = true
    ∨ jsStringIncludes url "widget.prxengage.com" = true
    ∨ jsStringIncludes url "api.prxengage.com" = true
    ∨ jsStringIncludes url "api-staging.prxengage.com" = true

/-- Platform branch of the component: the web target renders an iframe, all
other targets (`Platform.OS !== 'web'`) render the full WebView bridge. -/
inductive PlatformOS where
  | web
  | native

/-- Rendered output of the component body (source lines 205-253): on web an
iframe with the markup, a fixed 700-pixel height style, a title and the
geolocation allowance — and no message, navigation or injected-script props;
on native a WebView carrying the markup, the state-driven height style, the
injected script and the loading overlay flag. -/
inductive Rendered where
  | iframe (srcDoc : String) (heightPx : ℚ) (title : String) (allow : String)
  | webview (sourceHtml : String) (heightStyle : JVal) (injectedJS : String)
      (showsLoader : Bool)

/-- Render function of the component (source lines 205-253). -/
def render (os : PlatformOS) (widgetId : String) (st : WidgetState) : Rendered :=
  match os with
  | PlatformOS.web =>
      Rendered.iframe (html widgetId) 700 "PRx Widget" "geolocation"
  | PlatformOS.native =>
      Rendered.webview (html widgetId) st.height
        (getInjectedJavaScript st.userLocation) st.loading

/-- Delivery of a frame/WebView message to the component: on the web branch
the iframe element carries no `onMessage` prop (source lines 206-219), so a
message from the embedded document reaches no handler and can cause neither
a state change nor an effect; on native the message goes to
`handleMessage`. -/
def dispatchMessageEvent (os : PlatformOS) (parsed : Option JVal)
    (st : WidgetState) : WidgetState × List Effect :=
  match os with
  | PlatformOS.web => (st, [])
  | PlatformOS.native => handleMessage parsed st

/-- Events the native component's handlers react to: the WebView load
completion (`onLoadEnd`), an inbound message (`onMessage`), a navigation
request (`onShouldStartLoadWithRequest`) and the resolution of the mount
location fetch. -/
inductive Event where
  | loadEnd
  | message (parsed : Option JVal)
  | navRequest (url : String)
  | locationResolved (p : PermOutcome) (f : FetchOutcome)

/-- One event-handler step of the component (source lines 32-49, 159-202,
234-236): `onLoadEnd` clears the loading flag; a message goes through
`handleMessage`; a navigation request leaves state untouched and may emit
the external-open effect; the location resolution stores the coordinate
exactly when permission was granted and the fetch succeeded. -/
def step (st : WidgetState) (e : Event) : WidgetState × List Effect :=
  match e with
  | Event.loadEnd => ({ st with loading := false }, [])
  | Event.message parsed => handleMessage parsed st
  | Event.navRequest url => (st, (handleNavigationRequest url).2)
  | Event.locationResolved p f =>
      match fetchUserLocation p f with
      | some c => ({ st with userLocation := some c }, [])
      | none => (st, [])

/-- Iterated event steps (effects dropped): the state after a sequence of
handler invocations. -/
def run (st : WidgetState) : List Event → WidgetState
  | [] => st
  | e :: es => run (step st e).1 es

/-- Executable discriminator test agrees with the propositional statement of
the strict-equality check. -/
theorem isStrField_eq_true_iff (v : Option JVal) (lit : String) :
    isStrField v lit = true ↔ v = some (JVal.jstr lit) := by
  cases v with
  | none => simp [isStrField]
  | some w => cases w <;> simp [isStrField]

/-- Executable truthiness agrees with the propositional `Truthy`. -/
theorem truthyOpt_eq_true_iff (v : Option JVal) :
    truthyOpt v = true ↔ Truthy v := by
  cases v with
  | none => simp [truthyOpt, Truthy]
  | some w =>
      cases w with
      | jnum n => cases n <;> simp [truthyOpt, truthy, Truthy, bne_iff_ne]
      | jstr s => simp [truthyOpt, truthy, Truthy, bne_iff_ne]
      | _ => simp [truthyOpt, truthy, Truthy]

/-- Boolean allow condition of the navigation handler agrees with the
propositional `NavTrusted`. -/
theorem navTrusted_bool_iff (url : String) :
    (url == "about:blank"
        || jsStringStartsWith url "data:"
        || jsStringIncludes url "widget.prxengage.com"
        || jsStringIncludes url "api.prxengage.com"
        || jsStringIncludes url "api-staging.prxengage.com") = true
      ↔ NavTrusted url := by
  simp [NavTrusted, Bool.or_eq_true, beq_iff_eq, or_assoc]

/-- Message handling never touches the loading flag or the stored
coordinate: only the height state is ever written. -/
theorem handleMessage_fst_loading (parsed : Option JVal) (st : WidgetState) :
    (handleMessage parsed st).1.loading = st.loading
      ∧ (handleMessage parsed st).1.userLocation = st.userLocation := by
  cases parsed with
  | none => exact ⟨rfl, rfl⟩
  | some v =>
      cases v with
      | jobj fields =>
          dsimp only [handleMessage]
          split <;> exact ⟨rfl, rfl⟩
      | jnull => exact ⟨rfl, rfl⟩
      | jbool b => exact ⟨rfl, rfl⟩
      | jnum n => exact ⟨rfl, rfl⟩
      | jstr s => exact ⟨rfl, rfl⟩
      | jarr elems => exact ⟨rfl, rfl⟩

/-- No event handler turns the loading flag on: if the flag is `true` after
a step, it was `true` before. -/
theorem step_loading_imp (st : WidgetState) (e : Event) :
    (step st e).1.loading = true → st.loading = true := by
  cases e with
  | loadEnd => intro h; simp [step] at h
  | message parsed =>
      intro h
      rw [show (step st (Event.message parsed)).1 = (handleMessage parsed st).1 from rfl] at h
      rw [(handleMessage_fst_loading parsed st).1] at h
      exact h
  | navRequest url => intro h; exact h
  | locationResolved p f =>
      cases hfl : fetchUserLocation p f <;> simp [step, hfl]

/-- Once the loading flag is off it stays off over any event sequence. -/
theorem run_loading_false (evs : List Event) :
    ∀ st : WidgetState, st.loading = false → (run st evs).loading = false := by
  induction evs with
  | nil => intro st h; exact h
  | cons e es ih =>
      intro st h
      have hstep : (step st e).1.loading = false := by
        cases hb : (step st e).1.loading
        · rfl
        · exact absurd (step_loading_imp st e hb) (by simp [h])
      exact ih (step st e).1 hstep

/-- C1: a navigation request is allowed in-document exactly when the URL is
the initial blank document, a data-scheme payload, matches one of the three
trusted origins, or does not begin with a web scheme (fail-open); a vetoed
request is routed to the external opener, an allowed one triggers nothing;
in particular the widget asset URL is allowed and the foreign URL is vetoed
and opened externally. -/
theorem c1_navigation_policy :
    (∀ url : String, (handleNavigationRequest url).1 = true
        ↔ (NavTrusted url ∨ jsStringStartsWith url "http" = false))
    ∧ (∀ url : String, (handleNavigationRequest url).1 = false
        → (handleNavigationRequest url).2 = [Effect.openURL (JVal.jstr url)])
    ∧ (∀ url : String, (handleNavigationRequest url).1 = true
        → (handleNavigationRequest url).2 = [])
    ∧ handleNavigationRequest "https://widget.prxengage.com/asset.js" = (true, [])
    ∧ handleNavigationRequest "https://evil.example.com"
        = (false, [Effect.openURL (JVal.jstr "https://evil.example.com")]) := by
  refine ⟨?_, ?_, ?_, rfl, rfl⟩
  · intro url
    cases hc : (url == "about:blank"
        || jsStringStartsWith url "data:"
        || jsStringIncludes url "widget.prxengage.com"
        || jsStringIncludes url "api.prxengage.com"
        || jsStringIncludes url "api-staging.prxengage.com") with
    | true =>
        simp only [handleNavigationRequest, hc, if_true, true_iff]
        exact Or.inl ((navTrusted_bool_iff url).mp hc)
    | false =>
        cases hh : jsStringStartsWith url "http" with
        | true =>
            simp only [handleNavigationRequest, hc, hh, Bool.false_eq_true,
              if_false, if_true]
            constructor
            · intro hcontra; exact absurd hcontra (by simp)
            · rintro (htr | hfalse)
              · exact absurd ((navTrusted_bool_iff url).mpr htr) (by simp [hc])
              · exact absurd hfalse (by simp [hh])
        | false =>
            simp only [handleNavigationRequest, hc, hh, Bool.false_eq_true,
              if_false, if_true]
            simp
  · intro url hfalse
    revert hfalse
    unfold handleNavigationRequest
    cases hc : (url == "about:blank"
        || jsStringStartsWith url "data:"
        || jsStringIncludes url "widget.prxengage.com"
        || jsStringIncludes url "api.prxengage.com"
        || jsStringIncludes url "api-staging.prxengage.com") <;>
      cases hh : jsStringStartsWith url "http" <;> simp
  · intro url htrue
    revert htrue
    unfold handleNavigationRequest
    cases hc : (url == "about:blank"
        || jsStringStartsWith url "data:"
        || jsStringIncludes url "widget.prxengage.com"
        || jsStringIncludes url "api.prxengage.com"
        || jsStringIncludes url "api-staging.prxengage.com") <;>
      cases hh : jsStringStartsWith url "http" <;> simp

/-- C2 counterexample: the claim fails at a resize message with numeric
height 0 — the handler leaves ContainerHeight at its previous value 600
instead of updating it to 0 (the payload check is a truthiness test). -/
theorem c2_resize_zero_counterexample :
    (handleMessage
        (some (JVal.jobj [("type", JVal.jstr "resize"), ("height", JVal.jnum (JNum.val 0))]))
        initState).1.height
      = JVal.jnum (JNum.val 600)
    ∧ JVal.jnum (JNum.val 600) ≠ JVal.jnum (JNum.val 0) := by
  refine ⟨rfl, fun hcontra => ?_⟩
  injection hcontra with h1
  injection h1 with h2
  exact absurd h2 (by norm_num)

/-- C2 (amended): a resize message whose numeric height is nonzero and not
NaN updates ContainerHeight to exactly that value — no clamping — with no
other state change and no effect. -/
theorem c2_resize_updates_height :
    ∀ (st : WidgetState) (fields : List (String × JVal)) (h : ℚ),
      List.lookup "type" fields = some (JVal.jstr "resize") →
      List.lookup "height" fields = some (JVal.jnum (JNum.val h)) →
      h ≠ 0 →
      handleMessage (some (JVal.jobj fields)) st
        = ({ st with height := JVal.jnum (JNum.val h) }, []) := by
  intro st fields h hty hht hne
  simp [handleMessage, hty, hht, isStrField, truthyOpt, truthy, bne_iff_ne, hne]

/-- C2 witness: a resize message with height 842 sets ContainerHeight to
exactly 842. -/
theorem c2_resize_updates_height_witness :
    handleMessage
        (some (JVal.jobj [("type", JVal.jstr "resize"), ("height", JVal.jnum (JNum.val 842))]))
        initState
      = ({ initState with height := JVal.jnum (JNum.val 842) }, []) :=
  c2_resize_updates_height initState
    [("type", JVal.jstr "resize"), ("height", JVal.jnum (JNum.val 842))] 842
    rfl rfl (by decide)

/-- C3 counterexample: the claim fails at an external_link message whose url
is the empty string — a string-typed url for which the handler issues no
external-open request at all (the payload check is a truthiness test). -/
theorem c3_external_link_empty_url_counterexample :
    (handleMessage
        (some (JVal.jobj [("type", JVal.jstr "external_link"), ("url", JVal.jstr "")]))
        initState)
      = (initState, [])
    ∧ ([] : List Effect) ≠ [Effect.openURL (JVal.jstr "")] := by
  exact ⟨rfl, by simp⟩

/-- C3 (amended): an external_link message with a nonempty URL string makes
the handler request exactly one external open of exactly that URL, with no
state change and no in-document navigation; a failure of the opener only
produces a log line (the catch continuation has no access to state and
reports the failure). -/
theorem c3_external_link_opens_once :
    ∀ (st : WidgetState) (fields : List (String × JVal)) (u : String),
      List.lookup "type" fields = some (JVal.jstr "external_link") →
      List.lookup "url" fields = some (JVal.jstr u) →
      u ≠ "" →
      handleMessage (some (JVal.jobj fields)) st = (st, [Effect.openURL (JVal.jstr u)])
      ∧ attemptOpenURLFollowup false ≠ [] := by
  intro st fields u hty hu hne
  constructor
  · simp [handleMessage, hty, hu, isStrField, truthyOpt, truthy, bne_iff_ne, hne]
  · simp [attemptOpenURLFollowup]

/-- C3 witness: an external_link message for https://example.com/x issues
exactly one external-open request for that URL and changes nothing else. -/
theorem c3_external_link_opens_once_witness :
    handleMessage
        (some (JVal.jobj
          [("type", JVal.jstr "external_link"), ("url", JVal.jstr "https://example.com/x")]))
        initState
      = (initState, [Effect.openURL (JVal.jstr "https://example.com/x")])
    ∧ attemptOpenURLFollowup false ≠ [] :=
  c3_external_link_opens_once initState
    [("type", JVal.jstr "external_link"), ("url", JVal.jstr "https://example.com/x")]
    "https://example.com/x" rfl rfl (by decide)

/-- C4 counterexample: the claim fails at a message that parses but does not
conform to the contract — `type` is resize yet `height` is the string
"abc" — because the handler stores the string into ContainerHeight instead
of discarding the message with no state change. -/
theorem c4_nonconforming_message_counterexample :
    (handleMessage
        (some (JVal.jobj [("type", JVal.jstr "resize"), ("height", JVal.jstr "abc")]))
        initState).1.height
      = JVal.jstr "abc"
    ∧ JVal.jstr "abc" ≠ initState.height := by
  refine ⟨rfl, fun hcontra => ?_⟩
  simp [initState] at hcontra

/-- C4 (amended): a message that is unparseable, parses to a non-object, or
parses to an object that neither carries discriminator resize with a truthy
height nor discriminator external_link with a truthy url, is discarded
silently — state unchanged, no effect, no exception. -/
theorem c4_silent_discard :
    ∀ (st : WidgetState) (parsed : Option JVal),
      (∀ fields, parsed = some (JVal.jobj fields) →
          ¬(List.lookup "type" fields = some (JVal.jstr "resize")
              ∧ Truthy (List.lookup "height" fields))
          ∧ ¬(List.lookup "type" fields = some (JVal.jstr "external_link")
              ∧ Truthy (List.lookup "url" fields))) →
      handleMessage parsed st = (st, []) := by
  intro st parsed hcond
  cases parsed with
  | none => rfl
  | some v =>
      cases v with
      | jobj fields =>
          obtain ⟨h1, h2⟩ := hcond fields rfl
          have e1 : (isStrField (List.lookup "type" fields) "resize"
              && truthyOpt (List.lookup "height" fields)) = false := by
            cases hb : (isStrField (List.lookup "type" fields) "resize"
                && truthyOpt (List.lookup "height" fields))
            · rfl
            · rw [Bool.and_eq_true] at hb
              exact absurd
                ⟨(isStrField_eq_true_iff _ _).mp hb.1, (truthyOpt_eq_true_iff _).mp hb.2⟩ h1
          have e2 : (isStrField (List.lookup "type" fields) "external_link"
              && truthyOpt (List.lookup "url" fields)) = false := by
            cases hb : (isStrField (List.lookup "type" fields) "external_link"
                && truthyOpt (List.lookup "url" fields))
            · rfl
            · rw [Bool.and_eq_true] at hb
              exact absurd
                ⟨(isStrField_eq_true_iff _ _).mp hb.1, (truthyOpt_eq_true_iff _).mp hb.2⟩ h2
          simp [handleMessage, e1, e2]
      | jnull => rfl
      | jbool b => rfl
      | jnum n => rfl
      | jstr s => rfl
      | jarr elems => rfl

/-- C4 witness: an unparseable payload (JSON.parse threw) is discarded with
no state change, no effect and no error. -/
theorem c4_silent_discard_witness :
    handleMessage none initState = (initState, []) :=
  c4_silent_discard initState none (fun _ hf => Option.noConfusion hf)

/-- C9: a message with the right discriminator but a falsy kind-specific
payload field — resize with height absent, NaN or 0, or external_link with
url absent or empty — causes no state update and no external-open request. -/
theorem c9_falsy_payload_noop :
    ∀ (st : WidgetState) (fields : List (String × JVal)),
      ((List.lookup "type" fields = some (JVal.jstr "resize")
          ∧ (List.lookup "height" fields = none
             ∨ List.lookup "height" fields = some (JVal.jnum JNum.nan)
             ∨ List.lookup "height" fields = some (JVal.jnum (JNum.val 0))))
       ∨ (List.lookup "type" fields = some (JVal.jstr "external_link")
          ∧ (List.lookup "url" fields = none
             ∨ List.lookup "url" fields = some (JVal.jstr "")))) →
      handleMessage (some (JVal.jobj fields)) st = (st, []) := by
  intro st fields hcase
  rcases hcase with ⟨hty, hht⟩ | ⟨hty, hu⟩
  · rcases hht with h | h | h <;>
      simp [handleMessage, hty, h, isStrField, truthyOpt, truthy]
  · rcases hu with h | h <;>
      simp [handleMessage, hty, h, isStrField, truthyOpt, truthy]

/-- C9 witness: a resize message with height 0 leaves the state untouched
and issues no effect. -/
theorem c9_falsy_payload_noop_witness :
    handleMessage
        (some (JVal.jobj [("type", JVal.jstr "resize"), ("height", JVal.jnum (JNum.val 0))]))
        initState
      = (initState, []) :=
  c9_falsy_payload_noop initState
    [("type", JVal.jstr "resize"), ("height", JVal.jnum (JNum.val 0))]
    (Or.inl ⟨rfl, Or.inr (Or.inr rfl)⟩)

/-- C5: with permission granted and the coordinate (37, -122) stored, the
injected geolocation stub invokes the success callback synchronously with
latitude 37, longitude -122, a non-null accuracy, null
altitude/altitudeAccuracy/heading/speed and the generated timestamp, and the
injected script does contain the getCurrentPosition override. -/
theorem c5_geolocation_override :
    ∀ (α β γ : Type) (success : GeoPosition → α) (error : β) (options : γ) (now : ℤ),
      fetchUserLocation PermOutcome.granted (FetchOutcome.ok ⟨37, -122⟩) = some ⟨37, -122⟩
      ∧ (∃ pos : GeoPosition,
          injectedGetCurrentPosition ⟨37, -122⟩ now success error options = success pos
          ∧ pos.coords.latitude = 37
          ∧ pos.coords.longitude = -122
          ∧ pos.coords.accuracy ≠ none
          ∧ pos.coords.altitude = none
          ∧ pos.coords.altitudeAccuracy = none
          ∧ pos.coords.heading = none
          ∧ pos.coords.speed = none
          ∧ pos.timestamp = now)
      ∧ jsStringIncludes (getInjectedJavaScript (some ⟨37, -122⟩))
          "navigator.geolocation.getCurrentPosition = function(success, error, options)"
          = true := by
  intro α β γ success error options now
  refine ⟨rfl, ⟨_, rfl, rfl, rfl, by simp, rfl, rfl, rfl, rfl, rfl⟩, by decide⟩

set_option maxRecDepth 8000 in
/-- Concrete scan of the injected script built without a coordinate: it
mentions geolocation nowhere. -/
theorem injectedJS_none_no_geolocation :
    jsStringIncludes (getInjectedJavaScript none) "geolocation" = false := by
  decide

/-- C6: on permission denial or fetch failure no coordinate is stored, the
location override fragment is empty, the injected script mentions
geolocation nowhere, and the resolution event leaves any state untouched
with no effect — failure is silent and non-fatal. -/
theorem c6_no_override_on_denial :
    ∀ (p : PermOutcome) (f : FetchOutcome),
      (p ≠ PermOutcome.granted ∨ f = FetchOutcome.failed) →
      fetchUserLocation p f = none
      ∧ locationOverride (fetchUserLocation p f) = ""
      ∧ jsStringIncludes (getInjectedJavaScript (fetchUserLocation p f)) "geolocation" = false
      ∧ (∀ st : WidgetState, step st (Event.locationResolved p f) = (st, [])) := by
  intro p f hfail
  have hnone : fetchUserLocation p f = none := by
    cases p with
    | granted =>
        cases f with
        | ok c =>
            rcases hfail with h | h
            · exact absurd rfl h
            · exact FetchOutcome.noConfusion h
        | failed => rfl
    | denied => rfl
    | failed => rfl
  refine ⟨hnone, by rw [hnone]; rfl,
    by rw [hnone]; exact injectedJS_none_no_geolocation, fun st => ?_⟩
  simp [step, hnone]

/-- C6 witness: with permission denied (and the fetch never succeeding) no
override is injected and the widget state is unaffected. -/
theorem c6_no_override_on_denial_witness :
    fetchUserLocation PermOutcome.denied FetchOutcome.failed = none
    ∧ locationOverride (fetchUserLocation PermOutcome.denied FetchOutcome.failed) = ""
    ∧ jsStringIncludes
        (getInjectedJavaScript (fetchUserLocation PermOutcome.denied FetchOutcome.failed))
        "geolocation" = false
    ∧ (∀ st : WidgetState,
        step st (Event.locationResolved PermOutcome.denied FetchOutcome.failed) = (st, [])) :=
  c6_no_override_on_denial PermOutcome.denied FetchOutcome.failed (Or.inl (by decide))

/-- C7: for every widget identifier, the generated markup contains the
configuration block with exactly that identifier as the widget_id value,
followed by the fixed build-time presentation options. -/
theorem c7_widget_id_in_markup :
    ∀ widgetId : String, ∃ before after : String,
      html widgetId
        = before
          ++ ("\"widget_id\": \"" ++ widgetId
              ++ "\",\n  \"consent_position\": \"above-condition\",\n  \"button_background_color\": \"#233b65\",\n  \"text_accent_color\": \"#120c0e\",\n  \"max_height_mode\": \"fill\",\n  \"container_style\": \"none\"")
          ++ after := by
  intro widgetId
  refine ⟨htmlDocHead, htmlDocTail, ?_⟩
  simp only [html, widgetIdKey, htmlConfigOptions, String.append_assoc]

/-- C8: the loading flag starts true, is cleared by the load-end event, and
no handler ever turns it back on — once false it stays false over any event
sequence. -/
theorem c8_loading_flag_monotone :
    initState.loading = true
    ∧ (∀ st : WidgetState, (step st Event.loadEnd).1.loading = false)
    ∧ (∀ (st : WidgetState) (e : Event),
        (step st e).1.loading = true → st.loading = true)
    ∧ (∀ (st : WidgetState) (evs : List Event),
        st.loading = false → (run st evs).loading = false) :=
  ⟨rfl, fun _ => rfl, step_loading_imp, fun st evs h => run_loading_false evs st h⟩

/-- C10: on the web platform the component renders the markup in an iframe
with the constant height 700 regardless of state, messages reach no handler
(no state change, no external open), and the rendered output is independent
of the ContainerHeight state, so the 600 fallback never shows. -/
theorem c10_web_platform_fixed_height :
    (∀ (widgetId : String) (st : WidgetState),
        render PlatformOS.web widgetId st
          = Rendered.iframe (html widgetId) 700 "PRx Widget" "geolocation")
    ∧ (∀ (widgetId : String) (st st' : WidgetState),
        render PlatformOS.web widgetId st = render PlatformOS.web widgetId st')
    ∧ (∀ (parsed : Option JVal) (st : WidgetState),
        dispatchMessageEvent PlatformOS.web parsed st = (st, []))
    ∧ (∀ (widgetId : String) (parsed : Option JVal) (st : WidgetState),
        render PlatformOS.web widgetId (dispatchMessageEvent PlatformOS.web parsed st).1
          = render PlatformOS.web widgetId st)
    ∧ (700 : ℚ) ≠ 600 := by
  refine ⟨fun w st => rfl, fun w st st' => rfl, fun p st => rfl, fun w p st => rfl, by norm_num⟩
